import Mathlib

set_option maxHeartbeats 1000000

/-!
Verification development for the Telegram ads marketplace deal pipeline.

The repository ships the mini-app frontend (React/TypeScript) together with the
design documents of the backend deal orchestrator.  The frontend source
(`DealDetail.tsx`, `api/client`, `api/types.ts`, `SubscribersChart`) is embedded
directly.  The backend deal state machine, orchestrator and escrow service are
not part of the shipped sources; where a property depends on them, the
corresponding definition is modelled from the specification text (each such
definition is marked `Modelled from the spec:` in its doc comment) and checked
for consistency with the transition table printed in `docs/modules.md`.
-/

/-- The sixteen deal lifecycle statuses, from the `DealStatus` union type in
`frontend/src/api/types.ts`. -/
inductive DealStatus
  | DRAFT
  | NEGOTIATION
  | OWNER_ACCEPTED
  | AWAITING_ESCROW_PAYMENT
  | ESCROW_FUNDED
  | CREATIVE_PENDING_OWNER
  | CREATIVE_SUBMITTED
  | CREATIVE_CHANGES_REQUESTED
  | CREATIVE_APPROVED
  | SCHEDULED
  | POSTED
  | RETENTION_CHECK
  | RELEASED
  | REFUNDED
  | CANCELLED
  | EXPIRED
deriving DecidableEq, Repr, Fintype

/-- The deal state machine events named in the specification's transition
table (section 4.1). -/
inductive DealEvent
  | send
  | accept
  | cancel
  | timeout
  | escrow_requested
  | deposit_confirmed
  | begin_creative
  | cancel_post_escrow
  | submit
  | refund
  | approve
  | request_changes
  | resubmit
  | schedule
  | posted
  | retention_started
  | verified_ok
  | verified_violation
deriving DecidableEq, Repr, Fintype

/-- Modelled from the spec: the `DealStateMachine` transition table of
section 4.1 (the backend module `deal_state_machine.py` is not in the shipped
sources; the table below also matches the transition table printed in
`docs/modules.md`).  `none` means the (status, event) pair is not in the
table. -/
def transitionTable : DealStatus → DealEvent → Option DealStatus
  | .DRAFT, .send => some .NEGOTIATION
  | .DRAFT, .cancel => some .CANCELLED
  | .NEGOTIATION, .accept => some .OWNER_ACCEPTED
  | .NEGOTIATION, .cancel => some .CANCELLED
  | .NEGOTIATION, .timeout => some .EXPIRED
  | .OWNER_ACCEPTED, .escrow_requested => some .AWAITING_ESCROW_PAYMENT
  | .OWNER_ACCEPTED, .cancel => some .CANCELLED
  | .OWNER_ACCEPTED, .timeout => some .EXPIRED
  | .AWAITING_ESCROW_PAYMENT, .deposit_confirmed => some .ESCROW_FUNDED
  | .AWAITING_ESCROW_PAYMENT, .cancel => some .CANCELLED
  | .AWAITING_ESCROW_PAYMENT, .timeout => some .EXPIRED
  | .ESCROW_FUNDED, .begin_creative => some .CREATIVE_PENDING_OWNER
  | .ESCROW_FUNDED, .cancel_post_escrow => some .REFUNDED
  | .CREATIVE_PENDING_OWNER, .submit => some .CREATIVE_SUBMITTED
  | .CREATIVE_PENDING_OWNER, .refund => some .REFUNDED
  | .CREATIVE_PENDING_OWNER, .timeout => some .EXPIRED
  | .CREATIVE_SUBMITTED, .approve => some .CREATIVE_APPROVED
  | .CREATIVE_SUBMITTED, .request_changes => some .CREATIVE_CHANGES_REQUESTED
  | .CREATIVE_SUBMITTED, .refund => some .REFUNDED
  | .CREATIVE_CHANGES_REQUESTED, .resubmit => some .CREATIVE_SUBMITTED
  | .CREATIVE_CHANGES_REQUESTED, .refund => some .REFUNDED
  | .CREATIVE_CHANGES_REQUESTED, .timeout => some .EXPIRED
  | .CREATIVE_APPROVED, .schedule => some .SCHEDULED
  | .CREATIVE_APPROVED, .refund => some .REFUNDED
  | .SCHEDULED, .posted => some .POSTED
  | .SCHEDULED, .refund => some .REFUNDED
  | .SCHEDULED, .timeout => some .EXPIRED
  | .POSTED, .retention_started => some .RETENTION_CHECK
  | .RETENTION_CHECK, .verified_ok => some .RELEASED
  | .RETENTION_CHECK, .verified_violation => some .REFUNDED
  | _, _ => none

/-- The four terminal statuses (spec section 4.1, `docs/modules.md`). -/
def isTerminal : DealStatus → Bool
  | .RELEASED | .REFUNDED | .CANCELLED | .EXPIRED => true
  | _ => false

/-- A Deal record: the status plus representative further per-deal state
(fields taken from the `Deal` interface in `frontend/src/api/types.ts`). -/
structure DealRec where
  id : Nat
  status : DealStatus
  price : Nat
  brief : String
deriving DecidableEq, Repr

/-- The rejection reason produced for a (status, event) pair outside the
transition table (spec section 7, error taxonomy: IllegalTransition). -/
def illegalTransitionMsg : String := "illegal transition"

/-- Modelled from the spec: `DealOrchestrator.apply` delegates to the state
machine; on rejection it returns a typed error without mutating state (the
orchestrator module is not in the shipped sources).  The result pairs the
outcome with the Deal as persisted after the call. -/
def applyEvent (d : DealRec) (e : DealEvent) : Except String DealStatus × DealRec :=
  match transitionTable d.status e with
  | none => (Except.error illegalTransitionMsg, d)
  | some s2 => (Except.ok s2, { d with status := s2 })

/-- Embedded from `handleAction` in `frontend/src/screens/DealDetail.tsx`
(lines 164-177): on a failed transition the caught error message is stored
verbatim in the `actionError` state shown to the user; on success no error is
shown. -/
def handleActionError : Except String DealStatus → Option String
  | .error m => some m
  | .ok _ => none

/-- The on-chain escrow states, from the `on_chain_state` field of the
`Escrow` interface in `frontend/src/api/types.ts`. -/
inductive EscrowChainState
  | init
  | funded
  | released
  | refunded
deriving DecidableEq, Repr, Fintype

/-- Modelled from the spec: the permitted evolutions of `onChainState`
(section 3, Escrow invariant: monotonic along init to funded to released or
refunded; the escrow service module is not in the shipped sources).
`escrowStep s t = true` means one operation may move the state from `s` to
`t`. -/
def escrowStep : EscrowChainState → EscrowChainState → Bool
  | .init, .funded => true
  | .funded, .released => true
  | .funded, .refunded => true
  | _, _ => false

/-- Progress rank of an on-chain escrow state along the lifecycle. -/
def escrowRank : EscrowChainState → Nat
  | .init => 0
  | .funded => 1
  | .released => 2
  | .refunded => 2

/-- Outcome of a retention verification attempt (spec section 4.2, Retention
verification; surfaced to the client as `RetentionCheckResult` in
`frontend/src/api/types.ts`). -/
inductive RetentionOutcome
  | notYetEligible
  | verifiedOk
  | verifiedViolation
deriving DecidableEq, Repr

/-- Modelled from the spec: retention verification is allowed only once
`now >= postedAt + retentionHours`; an early check returns an explicit
not-yet-eligible result; once eligible, an intact post verifies ok and a
deleted or changed post is a violation (the posting service module is not in
the shipped sources).  Times are in a common abstract unit. -/
def verifyRetention (now postedAt retentionHours : Nat) (intact : Bool) :
    RetentionOutcome :=
  if now < postedAt + retentionHours then .notYetEligible
  else if intact then .verifiedOk else .verifiedViolation

/-- Modelled from the spec: the orchestrator feeds the verification outcome
into the state machine (`verified_ok` or `verified_violation`); a
not-yet-eligible result causes no transition. -/
def retentionCheckStep (d : DealRec) (now postedAt retentionHours : Nat)
    (intact : Bool) : DealRec × RetentionOutcome :=
  match verifyRetention now postedAt retentionHours intact with
  | .notYetEligible => (d, .notYetEligible)
  | .verifiedOk => ((applyEvent d .verified_ok).2, .verifiedOk)
  | .verifiedViolation => ((applyEvent d .verified_violation).2, .verifiedViolation)

/-- Result of a deposit-confirmation call (spec section 4.2, Deposit
confirmation: a clear not-yet-funded result is not an error). -/
inductive ConfirmDepositResult
  | fundedConfirmed
  | notYetFunded
  | notAwaiting
deriving DecidableEq, Repr

/-- Modelled from the spec: deposit confirmation always re-reads chain state
rather than trusting the caller (the frontend call `confirmDeposit` posts an
empty body, `frontend/src/api/escrow` part); the `chain` argument is the fresh
chain read.  If the chain shows funded the `deposit_confirmed` transition
fires; otherwise the call is a no-op returning not-yet-funded. -/
def confirmDepositStep (d : DealRec) (chain : EscrowChainState) :
    DealRec × ConfirmDepositResult :=
  if d.status = .AWAITING_ESCROW_PAYMENT then
    if chain = .funded then ((applyEvent d .deposit_confirmed).2, .fundedConfirmed)
    else (d, .notYetFunded)
  else (d, .notAwaiting)

/-- Action taken by the schedule handler in the frontend. -/
inductive ScheduleAction
  | noDate
  | rejectedPast
  | callSchedule (ts : Int)
deriving DecidableEq, Repr

/-- Embedded from `handleSchedulePost` in `frontend/src/screens/DealDetail.tsx`
(lines 295-312): an empty date is ignored; `parsedTime` stands for
`new Date(dateStr).getTime()` and `now` for `Date.now()`; a parsed time not
strictly in the future shows the past-schedule alert and makes no API call;
otherwise `schedulePost` is called with the timestamp. -/
def handleSchedulePost (scheduleDate : String) (parsedTime now : Int) :
    ScheduleAction :=
  if scheduleDate = "" then .noDate
  else if parsedTime ≤ now then .rejectedPast
  else .callSchedule parsedTime

/-- A Posting record: fields taken from the `DealPosting` interface in
`frontend/src/api/types.ts`. -/
structure PostingRec where
  scheduledAt : Option Int
  postedAt : Option Nat
  retentionHours : Nat
deriving DecidableEq, Repr

/-- Modelled from the spec: scheduling stores `scheduledAt` on the Posting and
the guard rejects any timestamp not strictly in the future (section 4.2,
Scheduling; the backend schedule endpoint is not in the shipped sources).
Returns the updated Deal and Posting, or `none` when the request is
rejected. -/
def schedulePostBackend (d : DealRec) (p : PostingRec) (ts now : Int) :
    Option (DealRec × PostingRec) :=
  if d.status = .CREATIVE_APPROVED ∧ now < ts then
    some ((applyEvent d .schedule).2, { p with scheduledAt := some ts })
  else none

/-- JavaScript `String.prototype.trim`: strips leading and trailing
whitespace. -/
def jsTrim (s : String) : String :=
  String.mk (((s.data.dropWhile Char.isWhitespace).reverse.dropWhile
    Char.isWhitespace).reverse)

/-- Embedded from `handleRequestChanges` in
`frontend/src/screens/DealDetail.tsx` (lines 284-293): when the feedback text
trims to the empty string the handler returns without performing anything;
otherwise `requestCreativeChanges` is called with the feedback text.  The
result is the feedback sent, or `none` when no call is made. -/
def handleRequestChanges (feedbackText : String) : Option String :=
  if jsTrim feedbackText = "" then none else some feedbackText

/-- Creative statuses, from the `CreativeVersion` interface in
`frontend/src/api/types.ts`. -/
inductive CreativeStatusT
  | submitted
  | approved
  | changes_requested
deriving DecidableEq, Repr

/-- A CreativeVersion record: fields taken from the `CreativeVersion`
interface in `frontend/src/api/types.ts`. -/
structure CreativeRec where
  version : Nat
  text : String
  status : CreativeStatusT
  feedback : Option String
  isCurrent : Bool
deriving DecidableEq, Repr

/-- Modelled from the spec: `request_changes` requires non-empty feedback text
and resets to CREATIVE_CHANGES_REQUESTED, recording the feedback on the
rejected creative version (section 4.2, Creative approval loop; the backend
endpoint is not in the shipped sources). -/
def requestChangesBackend (d : DealRec) (c : CreativeRec) (feedback : String) :
    Option (DealRec × CreativeRec) :=
  if d.status = .CREATIVE_SUBMITTED ∧ jsTrim feedback ≠ "" then
    some ((applyEvent d .request_changes).2,
      { c with status := .changes_requested, feedback := some feedback })
  else none

/-- A fetch response as observed by the API client: HTTP status, `ok` flag,
status text, the parsed `Retry-After` header in seconds when present, the
`detail` string extracted from a JSON error body when present, and the JSON
body for successes (`frontend/src/api/client`). -/
structure HttpResponse where
  status : Nat
  ok : Bool
  statusText : String
  retryAfter : Option Nat
  detail : Option String
  body : String
deriving DecidableEq, Repr

/-- One fetch attempt either yields a response or fails with a network or
abort error (`frontend/src/api/client`). -/
inductive FetchOutcome
  | success (r : HttpResponse)
  | netError (msg : String)
deriving DecidableEq, Repr

/-- Result of the API client `request` function: a payload (`none` models the
`undefined` returned for 204), a thrown `ApiError` with message and status, or
the final thrown error after exhausted retries. -/
inductive ReqResult
  | payload (body : Option String)
  | apiError (message : String) (status : Nat)
  | failed (msg : String)
deriving DecidableEq, Repr

/-- `MAX_RETRIES` constant of `frontend/src/api/client`. -/
def MAX_RETRIES : Nat := 2

/-- `RETRY_BACKOFF_MS` constant of `frontend/src/api/client`. -/
def RETRY_BACKOFF_MS : Nat := 1000

/-- Error detail computed for a non-OK response: the parsed JSON `detail`
string when available, otherwise `status statusText`
(`frontend/src/api/client`, `request`). -/
def errorDetail (r : HttpResponse) : String :=
  match r.detail with
  | some d => d
  | none => toString r.status ++ " " ++ r.statusText

/-- Delay before retrying a 429: `Retry-After` seconds times 1000 when the
header is present, otherwise `RETRY_BACKOFF_MS * (attempt + 1)`
(`frontend/src/api/client`, `request`). -/
def retryDelay (r : HttpResponse) (attempt : Nat) : Nat :=
  match r.retryAfter with
  | some secs => secs * 1000
  | none => RETRY_BACKOFF_MS * (attempt + 1)

/-- Observable trace of one `request` call: its result, how many fetch
attempts were made, and the sleep delays taken between attempts. -/
structure ReqTrace where
  result : ReqResult
  fetches : Nat
  delays : List Nat
deriving DecidableEq, Repr

/-- Embedded from `request` in `frontend/src/api/client` (the retry loop,
lines 35-91): `env attempt` is the outcome of the fetch made on iteration
`attempt`.  A 429 with attempts remaining sleeps and retries; any other
non-OK response throws `ApiError` immediately (the catch rethrows it); a 204
returns `undefined`; other OK responses return the parsed body; a network
error retries with linear backoff while attempts remain, and the last error is
thrown once the loop ends.  The fuel argument is the number of loop iterations
remaining, `MAX_RETRIES + 1 - attempt` at every call. -/
def requestGo (env : Nat → FetchOutcome) : Nat → Option String → Nat → ReqTrace
  | _, lastErr, 0 => ⟨.failed (lastErr.getD "Request failed"), 0, []⟩
  | attempt, lastErr, fuel + 1 =>
    match env attempt with
    | .success r =>
      if r.status = 429 ∧ attempt < MAX_RETRIES then
        let rest := requestGo env (attempt + 1) lastErr fuel
        ⟨rest.result, rest.fetches + 1, retryDelay r attempt :: rest.delays⟩
      else if r.ok = false then
        ⟨.apiError (errorDetail r) r.status, 1, []⟩
      else if r.status = 204 then
        ⟨.payload none, 1, []⟩
      else
        ⟨.payload (some r.body), 1, []⟩
    | .netError e =>
      if attempt < MAX_RETRIES then
        let rest := requestGo env (attempt + 1) (some e) fuel
        ⟨rest.result, rest.fetches + 1, RETRY_BACKOFF_MS * (attempt + 1) :: rest.delays⟩
      else
        ⟨.failed e, 1, []⟩

/-- A full `request` call: attempts start at 0 with `MAX_RETRIES + 1` loop
iterations available and no recorded error. -/
def requestRun (env : Nat → FetchOutcome) : ReqTrace :=
  requestGo env 0 none (MAX_RETRIES + 1)

/-- How `pollDepositVerification` stopped: budget exhausted (deal reloaded) or
the escrow reported funded (deal reloaded). -/
inductive PollStop
  | gaveUp
  | fundedStop
deriving DecidableEq, Repr

/-- Embedded from `pollDepositVerification` in
`frontend/src/screens/DealDetail.tsx` (lines 189-204): with `attemptsLeft <= 0`
the poll stops and reloads without calling `confirmDeposit`; otherwise one
`confirmDeposit` call is made (`env n` is its reported `on_chain_state` with
`attemptsLeft = n`; `none` models a thrown and ignored error); on `funded` the
poll stops, otherwise it re-arms with `attemptsLeft - 1`.  Returns the stop
reason and the number of `confirmDeposit` calls made. -/
def pollDepositVerification (env : Nat → Option EscrowChainState) :
    Nat → PollStop × Nat
  | 0 => (.gaveUp, 0)
  | n + 1 =>
    if env (n + 1) = some .funded then (.fundedStop, 1)
    else
      let rest := pollDepositVerification env n
      (rest.1, rest.2 + 1)

/-- Minimum of a list of integers, as `Math.min(...values)` over a nonempty
array (`SubscribersChart`). -/
def listMin : List Int → Int
  | [] => 0
  | x :: xs => xs.foldl min x

/-- Maximum of a list of integers, as `Math.max(...values)` over a nonempty
array (`SubscribersChart`). -/
def listMax : List Int → Int
  | [] => 0
  | x :: xs => xs.foldl max x

/-- The data computed by a rendered chart: the polyline point coordinates, the
label count and the y-scaling range. -/
structure Chart where
  points : List (ℚ × ℚ)
  labelCount : Nat
  range : Int
deriving DecidableEq, Repr

/-- Embedded from `SubscribersChart` (unnamed source part, lines 10-33): a
series with fewer than 2 points renders nothing; otherwise the component
computes min, max, `range = maxVal - minVal || 1`, one point per datum with
`x = padding.left + (i / (data.length - 1)) * chartW`, and
`labelCount = Math.min(4, data.length)` date labels.  `data` carries the
subscriber values; `width` and `height` the SVG size. -/
def subscribersChart (data : List Int) (width height : ℚ) : Option Chart :=
  if data.length < 2 then none
  else
    let padLeft : ℚ := 10
    let padRight : ℚ := 10
    let padTop : ℚ := 10
    let padBottom : ℚ := 24
    let chartW := width - padLeft - padRight
    let chartH := height - padTop - padBottom
    let minVal := listMin data
    let maxVal := listMax data
    let diff := maxVal - minVal
    let range : Int := if diff = 0 then 1 else diff
    let pts := (List.range data.length).map fun i =>
      let v : Int := data.getD i 0
      (padLeft + ((i : ℚ) / ((data.length : ℚ) - 1)) * chartW,
       padTop + chartH -
         (((v : ℚ) - (minVal : ℚ)) / (range : ℚ)) * chartH)
    some ⟨pts, min 4 data.length, range⟩

/-- Concrete deal in a terminal status, used to exercise the rejection path. -/
def dealReleasedExample : DealRec := ⟨1, .RELEASED, 100, "example brief"⟩

/-- Concrete deal awaiting escrow payment. -/
def dealAwaitingExample : DealRec := ⟨2, .AWAITING_ESCROW_PAYMENT, 50, "b"⟩

/-- Concrete deal in retention check. -/
def dealRetentionExample : DealRec := ⟨3, .RETENTION_CHECK, 75, "c"⟩

/-- Concrete deal with an approved creative. -/
def dealApprovedExample : DealRec := ⟨4, .CREATIVE_APPROVED, 60, "d"⟩

/-- Concrete deal with a submitted creative. -/
def dealSubmittedExample : DealRec := ⟨5, .CREATIVE_SUBMITTED, 40, "e"⟩

/-- Concrete current creative version. -/
def creativeExample : CreativeRec := ⟨1, "ad text", .submitted, none, true⟩

/-- Concrete posting with no schedule yet. -/
def postingExample : PostingRec := ⟨none, none, 24⟩

/-- Environment in which every fetch returns a 404 with a JSON detail. -/
def envNotFound : Nat → FetchOutcome := fun _ =>
  .success ⟨404, false, "Not Found", none, some "User not found", ""⟩

/-- Environment in which every confirm-deposit call reports the escrow still
in init. -/
def envStillInit : Nat → Option EscrowChainState := fun _ => some .init

/-- The chart computed for the flat two-point series 5, 5 at the default
300 by 120 size. -/
def chartFlatExample : Chart := ⟨[(10, 96), (290, 96)], 2, 1⟩

/-- C1: every (status, event) pair outside the DealStateMachine transition
table is rejected with the illegal-transition error and the persisted Deal is
left unchanged (never a silent no-op); every event applied to a deal in a
terminal status (RELEASED, REFUNDED, CANCELLED, EXPIRED) is outside the table
and hence rejected; and the frontend `handleAction` surfaces the rejection
reason to the caller verbatim. -/
theorem C1_illegal_transition_rejected (d : DealRec) (e : DealEvent) :
    (transitionTable d.status e = none →
      applyEvent d e = (Except.error illegalTransitionMsg, d)) ∧
    (∀ s : DealStatus, isTerminal s = true →
      ∀ ev : DealEvent, transitionTable s ev = none) ∧
    (∀ m : String, handleActionError (Except.error m) = some m) := by
  refine ⟨fun h => ?_, by decide, fun m => rfl⟩
  simp [applyEvent, h]

/-- Witness for C1 at a concrete terminal deal: the `send` event on a
RELEASED deal is rejected with the verbatim reason and the deal is
unchanged. -/
theorem C1_witness :
    applyEvent dealReleasedExample DealEvent.send =
      (Except.error illegalTransitionMsg, dealReleasedExample) ∧
    transitionTable DealStatus.RELEASED DealEvent.send = none ∧
    handleActionError (Except.error illegalTransitionMsg) =
      some illegalTransitionMsg := by
  have h := C1_illegal_transition_rejected dealReleasedExample DealEvent.send
  exact ⟨h.1 rfl, h.2.1 DealStatus.RELEASED rfl DealEvent.send,
    h.2.2 illegalTransitionMsg⟩

/-- C2: the escrow `on_chain_state` evolves monotonically along
init to funded to released or refunded: every permitted operation raises the
progress rank by exactly one (so nothing moves backwards and the funded step
cannot be skipped), no operation leaves the released or refunded states, and
the only state reachable in one step from init is funded. -/
theorem C2_escrow_state_monotonic :
    (∀ s t : EscrowChainState, escrowStep s t = true →
      escrowRank t = escrowRank s + 1) ∧
    (∀ t : EscrowChainState, escrowStep .released t = false) ∧
    (∀ t : EscrowChainState, escrowStep .refunded t = false) ∧
    (∀ t : EscrowChainState, escrowStep .init t = true → t = .funded) := by
  decide

/-- Witness for C2 at concrete states: init to funded raises the rank by one,
funded cannot be skipped from init, and released admits no further step. -/
theorem C2_witness :
    escrowRank EscrowChainState.funded = escrowRank EscrowChainState.init + 1 ∧
    escrowStep EscrowChainState.released EscrowChainState.refunded = false ∧
    (escrowStep EscrowChainState.init EscrowChainState.released = true →
      EscrowChainState.released = EscrowChainState.funded) := by
  exact ⟨C2_escrow_state_monotonic.1 EscrowChainState.init EscrowChainState.funded rfl,
    C2_escrow_state_monotonic.2.2.1 EscrowChainState.refunded,
    C2_escrow_state_monotonic.2.2.2 EscrowChainState.released⟩

/-- C4: a retention verification attempt before the retention window has
elapsed returns the not-yet-eligible result and causes no status transition;
any verified outcome (ok or violation) implies the window has elapsed; and on
a deal in RETENTION_CHECK an eligible check resolves to RELEASED when the post
is intact and to REFUNDED otherwise. -/
theorem C4_retention_eligibility (d : DealRec)
    (now postedAt retentionHours : Nat) (intact : Bool) :
    (now < postedAt + retentionHours →
      retentionCheckStep d now postedAt retentionHours intact =
        (d, RetentionOutcome.notYetEligible)) ∧
    (verifyRetention now postedAt retentionHours intact ≠
        RetentionOutcome.notYetEligible →
      postedAt + retentionHours ≤ now) ∧
    (d.status = DealStatus.RETENTION_CHECK →
      postedAt + retentionHours ≤ now →
      (retentionCheckStep d now postedAt retentionHours intact).1.status =
        (if intact then DealStatus.RELEASED else DealStatus.REFUNDED)) := by
  refine ⟨fun h => ?_, fun h => ?_, fun hs h => ?_⟩
  · simp [retentionCheckStep, verifyRetention, h]
  · by_contra hlt
    exact h (by simp [verifyRetention, Nat.lt_of_not_le hlt])
  · have hnot : ¬ now < postedAt + retentionHours := Nat.not_lt.mpr h
    cases intact with
    | true => simp [retentionCheckStep, verifyRetention, hnot, applyEvent, hs,
        transitionTable]
    | false => simp [retentionCheckStep, verifyRetention, hnot, applyEvent, hs,
        transitionTable]

/-- Witness for C4 (spec Scenario D shape): with the post made at time 0 and a
24-unit window, a check at time 1 is not yet eligible and changes nothing,
while a check at time 25 with the post deleted resolves the deal to
REFUNDED. -/
theorem C4_witness :
    retentionCheckStep dealRetentionExample 1 0 24 false =
      (dealRetentionExample, RetentionOutcome.notYetEligible) ∧
    (retentionCheckStep dealRetentionExample 25 0 24 false).1.status =
      DealStatus.REFUNDED := by
  have h1 := C4_retention_eligibility dealRetentionExample 1 0 24 false
  have h2 := C4_retention_eligibility dealRetentionExample 25 0 24 false
  refine ⟨h1.1 (by decide), ?_⟩
  have := h2.2.2 rfl (by decide)
  simpa using this

/-- C5: a deposit-confirmation call on a deal in AWAITING_ESCROW_PAYMENT acts
only on the freshly read chain state: when the chain shows funded the deal
transitions to ESCROW_FUNDED, and otherwise the call is a no-op returning the
not-yet-funded result (not an error), leaving the deal unchanged so that
repeating the call yields the same outcome. -/
theorem C5_confirm_deposit (d : DealRec) (chain : EscrowChainState)
    (h : d.status = DealStatus.AWAITING_ESCROW_PAYMENT) :
    (chain = EscrowChainState.funded →
      (confirmDepositStep d chain).1.status = DealStatus.ESCROW_FUNDED ∧
      (confirmDepositStep d chain).2 = ConfirmDepositResult.fundedConfirmed) ∧
    (chain ≠ EscrowChainState.funded →
      confirmDepositStep d chain = (d, ConfirmDepositResult.notYetFunded) ∧
      confirmDepositStep (confirmDepositStep d chain).1 chain =
        (d, ConfirmDepositResult.notYetFunded)) := by
  constructor
  · intro hc
    simp [confirmDepositStep, h, hc, applyEvent, transitionTable]
  · intro hc
    have hstep : confirmDepositStep d chain =
        (d, ConfirmDepositResult.notYetFunded) := by
      simp [confirmDepositStep, h, hc]
    exact ⟨hstep, by rw [hstep]; simp [confirmDepositStep, h, hc]⟩

/-- Witness for C5 (spec Scenario B shape): a deal awaiting escrow payment
whose chain state is still init stays in AWAITING_ESCROW_PAYMENT with a
not-yet-funded result, also when the call is repeated; with the chain funded
it moves to ESCROW_FUNDED. -/
theorem C5_witness :
    confirmDepositStep dealAwaitingExample EscrowChainState.init =
      (dealAwaitingExample, ConfirmDepositResult.notYetFunded) ∧
    (confirmDepositStep dealAwaitingExample EscrowChainState.funded).1.status =
      DealStatus.ESCROW_FUNDED := by
  have h := C5_confirm_deposit dealAwaitingExample EscrowChainState.init rfl
  have h2 := C5_confirm_deposit dealAwaitingExample EscrowChainState.funded rfl
  exact ⟨(h.2 (by decide)).1, (h2.1 rfl).1⟩

/-- C6: a schedule request whose parsed timestamp is not strictly in the
future is rejected by the frontend guard before any scheduling call is made,
and the backend guard stores no schedule for it; whenever a schedule is
stored, the timestamp is strictly in the future, it is recorded as the
Posting's scheduledAt, and the deal moves to SCHEDULED. -/
theorem C6_schedule_strictly_future (d : DealRec) (p : PostingRec)
    (scheduleDate : String) (ts now : Int) :
    (ts ≤ now → ∀ u : Int,
      handleSchedulePost scheduleDate ts now ≠ ScheduleAction.callSchedule u) ∧
    (ts ≤ now → schedulePostBackend d p ts now = none) ∧
    (∀ d2 p2, schedulePostBackend d p ts now = some (d2, p2) →
      now < ts ∧ p2.scheduledAt = some ts ∧ d2.status = DealStatus.SCHEDULED) := by
  refine ⟨fun h u => ?_, fun h => ?_, fun d2 p2 hsome => ?_⟩
  · unfold handleSchedulePost
    split
    · simp
    · simp [h]
  · simp [schedulePostBackend, Int.not_lt.mpr h]
  · unfold schedulePostBackend at hsome
    split at hsome
    · rename_i hcond
      have hlt := hcond.2
      refine ⟨hlt, ?_, ?_⟩
      · cases hsome
        rfl
      · cases hsome
        simp [applyEvent, hcond.1, transitionTable]
    · exact absurd hsome (by simp)

/-- Witness for C6 at concrete times: a request for time 100 at current time
100 makes no scheduling call and stores nothing, while a request for time 101
at current time 100 stores scheduledAt 101 and moves the deal to
SCHEDULED. -/
theorem C6_witness :
    handleSchedulePost "2026-01-01" 100 100 ≠ ScheduleAction.callSchedule 100 ∧
    schedulePostBackend dealApprovedExample postingExample 100 100 = none ∧
    ((100 : Int) < 101 ∧
      ({ postingExample with scheduledAt := some 101 } : PostingRec).scheduledAt =
        some 101 ∧
      (applyEvent dealApprovedExample DealEvent.schedule).2.status =
        DealStatus.SCHEDULED) := by
  have h := C6_schedule_strictly_future dealApprovedExample postingExample
    "2026-01-01" 100 100
  have h2 := C6_schedule_strictly_future dealApprovedExample postingExample
    "2026-01-01" 101 100
  exact ⟨h.1 (by decide) 100, h.2.1 (by decide),
    h2.2.2 (applyEvent dealApprovedExample DealEvent.schedule).2
      { postingExample with scheduledAt := some 101 } (by rfl)⟩

/-- C7: a request-changes action requires non-empty feedback: when the
feedback trims to the empty string the frontend handler makes no API call and
the backend performs nothing, so no state changes; with non-empty feedback on
a deal in CREATIVE_SUBMITTED the deal resets to CREATIVE_CHANGES_REQUESTED and
the feedback is recorded on the rejected creative version. -/
theorem C7_request_changes_feedback (d : DealRec) (c : CreativeRec)
    (feedback : String) :
    (jsTrim feedback = "" →
      handleRequestChanges feedback = none ∧
      requestChangesBackend d c feedback = none) ∧
    (jsTrim feedback ≠ "" → d.status = DealStatus.CREATIVE_SUBMITTED →
      handleRequestChanges feedback = some feedback ∧
      ∃ d2 c2, requestChangesBackend d c feedback = some (d2, c2) ∧
        d2.status = DealStatus.CREATIVE_CHANGES_REQUESTED ∧
        c2.feedback = some feedback ∧
        c2.status = CreativeStatusT.changes_requested) := by
  constructor
  · intro h
    exact ⟨by simp [handleRequestChanges, h], by simp [requestChangesBackend, h]⟩
  · intro h hs
    refine ⟨by simp [handleRequestChanges, h], ?_⟩
    refine ⟨(applyEvent d .request_changes).2,
      { c with status := .changes_requested, feedback := some feedback }, ?_, ?_, rfl, rfl⟩
    · simp [requestChangesBackend, hs, h]
    · simp [applyEvent, hs, transitionTable]

/-- Witness for C7 (spec Scenario C shape): whitespace-only feedback performs
nothing, and the feedback text of Scenario C resets a submitted creative's
deal to CREATIVE_CHANGES_REQUESTED with the feedback recorded. -/
theorem C7_witness :
    handleRequestChanges "   " = none ∧
    requestChangesBackend dealSubmittedExample creativeExample "   " = none ∧
    (handleRequestChanges "too long" = some "too long" ∧
      ∃ d2 c2,
        requestChangesBackend dealSubmittedExample creativeExample "too long" =
          some (d2, c2) ∧
        d2.status = DealStatus.CREATIVE_CHANGES_REQUESTED ∧
        c2.feedback = some "too long" ∧
        c2.status = CreativeStatusT.changes_requested) := by
  have h1 := C7_request_changes_feedback dealSubmittedExample creativeExample "   "
  have h2 := C7_request_changes_feedback dealSubmittedExample creativeExample
    "too long"
  have hws : jsTrim "   " = "" := by decide
  have hne : jsTrim "too long" ≠ "" := by decide
  exact ⟨(h1.1 hws).1, (h1.1 hws).2, h2.2 hne rfl⟩

/-- The retry loop makes at most one fetch per remaining iteration. -/
theorem requestGo_fetches_le (env : Nat → FetchOutcome) (attempt : Nat)
    (lastErr : Option String) (fuel : Nat) :
    (requestGo env attempt lastErr fuel).fetches ≤ fuel := by
  induction fuel generalizing attempt lastErr with
  | zero => simp [requestGo]
  | succ n ih =>
    unfold requestGo
    cases env attempt with
    | success r =>
      by_cases h1 : r.status = 429 ∧ attempt < MAX_RETRIES
      · simpa [h1] using Nat.succ_le_succ (ih (attempt + 1) lastErr)
      · by_cases h2 : r.ok = false
        · simp [h1, h2]
        · by_cases h3 : r.status = 204 <;> simp [h1, h2, h3]
    | netError e =>
      by_cases h1 : attempt < MAX_RETRIES
      · simpa [h1] using Nat.succ_le_succ (ih (attempt + 1) (some e))
      · simp [h1]

/-- C8: the API client `request` makes at most MAX_RETRIES + 1 = 3 fetch
attempts; a non-OK response other than a 429 with attempts remaining raises
ApiError with the parsed detail and the response status immediately, with no
further fetch in that call; a 429 with attempts remaining sleeps for the
Retry-After header value in seconds times 1000 when present and otherwise for
the linear backoff, then retries; and a 204 returns the undefined payload
without parsing a body. -/
theorem C8_api_client_request (env : Nat → FetchOutcome) (attempt fuel : Nat)
    (lastErr : Option String) :
    MAX_RETRIES + 1 = 3 ∧
    (requestRun env).fetches ≤ 3 ∧
    (∀ r : HttpResponse, env attempt = .success r → r.ok = false →
      ¬(r.status = 429 ∧ attempt < MAX_RETRIES) →
      requestGo env attempt lastErr (fuel + 1) =
        ⟨.apiError (errorDetail r) r.status, 1, []⟩) ∧
    (∀ r : HttpResponse, env attempt = .success r → r.status = 429 →
      attempt < MAX_RETRIES →
      requestGo env attempt lastErr (fuel + 1) =
        ⟨(requestGo env (attempt + 1) lastErr fuel).result,
         (requestGo env (attempt + 1) lastErr fuel).fetches + 1,
         retryDelay r attempt :: (requestGo env (attempt + 1) lastErr fuel).delays⟩) ∧
    (∀ r : HttpResponse, (∀ secs, r.retryAfter = some secs →
        retryDelay r attempt = secs * 1000) ∧
      (r.retryAfter = none →
        retryDelay r attempt = RETRY_BACKOFF_MS * (attempt + 1))) ∧
    (∀ r : HttpResponse, env attempt = .success r → r.ok = true →
      r.status = 204 →
      requestGo env attempt lastErr (fuel + 1) = ⟨.payload none, 1, []⟩) := by
  refine ⟨rfl, requestGo_fetches_le env 0 none 3, ?_, ?_, ?_, ?_⟩
  · intro r henv hok hnot
    unfold requestGo
    rw [henv]
    simp [hnot, hok]
  · intro r henv h429 hlt
    conv_lhs => rw [requestGo.eq_def]
    simp [henv, h429, hlt]
  · intro r
    constructor
    · intro secs hra
      simp [retryDelay, hra]
    · intro hra
      simp [retryDelay, hra]
  · intro r henv hok h204
    unfold requestGo
    rw [henv]
    have : ¬(r.status = 429 ∧ attempt < MAX_RETRIES) := by
      rintro ⟨hc, -⟩
      rw [h204] at hc
      exact absurd hc (by decide)
    simp [this, hok, h204]

/-- Witness for C8 at a concrete environment (the shape of the repository's
own api-client test): every fetch yields a 404 with JSON detail, so the very
first attempt raises ApiError with that detail and status 404 after exactly
one fetch. -/
theorem C8_witness :
    requestRun envNotFound =
      ⟨ReqResult.apiError "User not found" 404, 1, []⟩ ∧
    (requestRun envNotFound).fetches ≤ 3 := by
  have h := C8_api_client_request envNotFound 0 2 none
  have h404 := h.2.2.1 ⟨404, false, "Not Found", none, some "User not found", ""⟩
    rfl rfl (by decide)
  exact ⟨h404, h.2.1⟩

/-- The deposit poll makes at most one confirm-deposit call per unit of
attempt budget. -/
theorem pollDeposit_calls_le (env : Nat → Option EscrowChainState) (n : Nat) :
    (pollDepositVerification env n).2 ≤ n := by
  induction n with
  | zero => simp [pollDepositVerification]
  | succ k ih =>
    unfold pollDepositVerification
    by_cases hf : env (k + 1) = some EscrowChainState.funded
    · simp [hf]
    · simp only [hf, if_false]
      exact Nat.succ_le_succ ih

/-- C9: `pollDepositVerification` terminates for every attempt budget: it
makes at most `attemptsLeft` confirm-deposit calls (so the budget of 12
started by `handleSendDeposit` yields at most 12 polls before giving up), it
stops after the call that reports the escrow funded, and each non-final step
recurses with the budget decreased by exactly one while making exactly one
more call. -/
theorem C9_poll_deposit_terminates (env : Nat → Option EscrowChainState)
    (n : Nat) :
    (pollDepositVerification env n).2 ≤ n ∧
    (pollDepositVerification env 12).2 ≤ 12 ∧
    (env (n + 1) = some EscrowChainState.funded →
      pollDepositVerification env (n + 1) = (PollStop.fundedStop, 1)) ∧
    (env (n + 1) ≠ some EscrowChainState.funded →
      pollDepositVerification env (n + 1) =
        ((pollDepositVerification env n).1,
         (pollDepositVerification env n).2 + 1)) := by
  refine ⟨pollDeposit_calls_le env n, pollDeposit_calls_le env 12,
    fun hf => ?_, fun hf => ?_⟩
  · conv_lhs => rw [pollDepositVerification.eq_def]
    simp [hf]
  · conv_lhs => rw [pollDepositVerification.eq_def]
    simp [hf]

/-- Witness for C9 at the concrete budget used by `handleSendDeposit`: when
every poll reports the escrow still in init, 12 polls are made and the poll
gives up; decreasing from budget 12 the first step adds exactly one call. -/
theorem C9_witness :
    (pollDepositVerification envStillInit 12).2 ≤ 12 ∧
    pollDepositVerification envStillInit 12 =
      ((pollDepositVerification envStillInit 11).1,
       (pollDepositVerification envStillInit 11).2 + 1) := by
  have h := C9_poll_deposit_terminates envStillInit 11
  exact ⟨h.2.1, h.2.2.2 (by decide)⟩

/-- C10: `SubscribersChart` renders nothing for a series with fewer than two
points; for every rendered chart the y-scaling range is nonzero and the
divisors `data.length - 1` and `labelCount - 1` are at least one (the label
count is at least two), with one computed point per datum, so every point
coordinate and label position is produced by a division with a nonzero
divisor. -/
theorem C10_subscribers_chart_safe (data : List Int) (w h : ℚ) :
    (data.length < 2 → subscribersChart data w h = none) ∧
    (2 ≤ data.length →
      (subscribersChart data w h).isSome = true ∧
      ∀ c : Chart, subscribersChart data w h = some c →
        c.range ≠ 0 ∧ 1 ≤ data.length - 1 ∧ 2 ≤ c.labelCount ∧
        1 ≤ c.labelCount - 1 ∧ c.points.length = data.length) := by
  constructor
  · intro hlen
    simp [subscribersChart, hlen]
  · intro hlen
    have hnot : ¬ data.length < 2 := Nat.not_lt.mpr hlen
    constructor
    · simp [subscribersChart, hnot]
    · intro c hc
      simp only [subscribersChart, hnot, if_false] at hc
      have hceq := Option.some.inj hc
      subst hceq
      have hmin : 2 ≤ min 4 data.length := le_min (by norm_num) hlen
      refine ⟨?_, by omega, ?_, ?_, ?_⟩
      · dsimp only
        split_ifs with hd
        · decide
        · exact hd
      · exact hmin
      · show 1 ≤ min 4 data.length - 1
        omega
      · simp

/-- Witness for C10 at concrete series: a one-point series renders nothing,
and the flat series 5, 5 renders a chart whose range is the nonzero fallback
1 with two labels and one point per datum. -/
theorem C10_witness :
    subscribersChart [(42 : Int)] 300 120 = none ∧
    (subscribersChart [(5 : Int), 5] 300 120).isSome = true ∧
    chartFlatExample.range ≠ 0 ∧ 2 ≤ chartFlatExample.labelCount ∧
    chartFlatExample.points.length = 2 := by
  have h1 := C10_subscribers_chart_safe [(42 : Int)] 300 120
  have h2 := C10_subscribers_chart_safe [(5 : Int), 5] 300 120
  have hp := (h2.2 (by decide)).2 chartFlatExample
    (by norm_num [subscribersChart, chartFlatExample, listMin, listMax,
      List.range_succ])
  exact ⟨h1.1 (by decide), (h2.2 (by decide)).1, hp.1, hp.2.2.1,
    by simpa using hp.2.2.2.2⟩
